import Mathlib

/-!
Verification development for the online-learning modules of the Bot-Stable
repository: `online_learning_bootstrap.py` (class `OnlineLearningBootstrap`)
and `online_learning_integration.py` (class `EnhancedOnlineLearningManager`).

Shallow embedding conventions:
* Python dicts keyed by symbol strings become `Dict α := String → Option α`.
* The sklearn `SGDClassifier` is external library code, so the classifier is
  kept abstract: a type `M` together with a `ClassifierOps` record supplying
  `create` (the `_create_initial_model` result for a given config),
  `partialFit` and `predictM`.  A library call that raises is modelled by the
  operation returning `none`.
* `datetime.now()` is modelled by an explicit `now : Nat` timestamp argument
  to every operation that stores a timestamp.
* `np.random.choice([0, 1], size=n)` is modelled by a random-bit oracle
  `rng : Nat → Bool` turned into a 0/1 vector of length `n`.
* Feature rows are an abstract type `F`; labels are `Nat`; metric values are
  exact rationals `ℚ`.
* A Python function that can raise is embedded as one returning the mutated
  state together with an `Except`/flag describing whether it raised, because
  in Python the mutations made before the raise persist.
-/

/-- A Python dict keyed by strings, as a lookup function. -/
def Dict (α : Type) : Type := String → Option α

/-- The empty dict `{}`. -/
def emptyD {α : Type} : Dict α := fun _ => none

/-- `d[k] = v` (assignment). -/
def dictInsert {α : Type} (d : Dict α) (k : String) (v : α) : Dict α :=
  fun q => if q = k then some v else d q

/-- `for k in keys: d[k] = v` (the same value at every key). -/
def dictInsertMany {α : Type} (d : Dict α) (keys : List String) (v : α) : Dict α :=
  keys.foldl (fun d k => dictInsert d k v) d

/-- The per-symbol performance record kept in `performance_tracker`
(`online_learning_bootstrap.py`, lines 47-54).  The Python keys named
precision and recall are rendered `precisionV` / `recallV` because the plain
words are reserved by the proof assistant. -/
structure PerfRecord where
  accuracy : ℚ
  precisionV : ℚ
  recallV : ℚ
  total_predictions : ℕ
  correct_predictions : ℕ
  last_updated : ℕ
deriving DecidableEq

/-- The freshly-zeroed performance record written by `initialize_models` and
`reset_model`, with `last_updated = datetime.now()`. -/
def zeroRecord (now : ℕ) : PerfRecord :=
  { accuracy := 0, precisionV := 0, recallV := 0,
    total_predictions := 0, correct_predictions := 0, last_updated := now }

/-- Number of positions where prediction equals label (`np.sum(predictions == y)`). -/
def matchCount (y p : List ℕ) : ℕ :=
  (y.zip p).countP (fun q => q.1 == q.2)

/-- Number of occurrences of a label value in a vector. -/
def cnt (l : List ℕ) (v : ℕ) : ℕ := l.countP (fun x => x == v)

/-- True positives for one label value: positions where both the true label
and the prediction equal `v`. -/
def tpCount (y p : List ℕ) (v : ℕ) : ℕ :=
  (y.zip p).countP (fun q => q.1 == v && q.2 == v)

/-- Insert into a sorted list (helper for `npUnique`). -/
def insertSorted (x : ℕ) : List ℕ → List ℕ
  | [] => [x]
  | y :: ys => if x ≤ y then x :: y :: ys else y :: insertSorted x ys

/-- `np.unique(y)`: the sorted list of distinct values of `y`. -/
def npUnique (l : List ℕ) : List ℕ := l.dedup.foldr insertSorted []

/-- Sum a list of nonnegative fractions given as numerator/denominator
pairs, without normalizing (plain cross-multiplication). -/
def sumFrac (terms : List (ℕ × ℕ)) : ℕ × ℕ :=
  terms.foldr (fun t acc => (t.1 * acc.2 + acc.1 * t.2, t.2 * acc.2)) (0, 1)

/-- `sklearn.metrics.accuracy_score(y, predictions)`: the fraction of
matching positions, `matchCount / len(y)`, as an exact rational. -/
def accuracy_score (y p : List ℕ) : ℚ :=
  if y.length = 0 then 0 else mkRat (matchCount y p) y.length

/-- `precision_score(y, predictions, average='weighted', zero_division=0)`:
the weighted average `(Σ over labels v of support(v) · TP(v)/predicted(v)) /
len(y)`, with a label's term taken as 0 when it is never predicted
(`zero_division=0`).  The fraction sum is assembled by cross-multiplication
so the resulting rational is a single `mkRat`. -/
def precision_weighted (y p : List ℕ) : ℚ :=
  if y.length = 0 then 0 else
    let s := sumFrac ((npUnique y).map (fun v =>
      if cnt p v = 0 then (0, 1) else (cnt y v * tpCount y p v, cnt p v)))
    mkRat s.1 (s.2 * y.length)

/-- `recall_score(y, predictions, average='weighted', zero_division=0)`:
the weighted average `(Σ over labels v of support(v) · TP(v)/support(v)) /
len(y)` with the `zero_division=0` guard, assembled like
`precision_weighted`. -/
def recall_weighted (y p : List ℕ) : ℚ :=
  if y.length = 0 then 0 else
    let s := sumFrac ((npUnique y).map (fun v =>
      if cnt y v = 0 then (0, 1) else (cnt y v * tpCount y p v, cnt y v)))
    mkRat s.1 (s.2 * y.length)

/-- `np.random.choice([0, 1], size=n)` driven by a bit oracle. -/
def randChoice (rng : ℕ → Bool) (n : ℕ) : List ℕ :=
  (List.range n).map (fun i => if rng i then 1 else 0)

/-- Interface of the external incremental classifier (sklearn
`SGDClassifier`).  `create cfg` is the classifier built by
`_create_initial_model` from the merged config; `partialFit m X y classes`
is `m.partial_fit(X, y, classes=classes)` (returning `none` when the library
call raises, e.g. for an empty class set); `predictM m X` is `m.predict(X)`
(`none` models the `NotFittedError` raised on a never-fitted model). -/
structure ClassifierOps (F M C : Type) where
  create : C → M
  partialFit : M → List F → List ℕ → List ℕ → Option M
  predictM : M → List F → Option (List ℕ)

/-- Exceptions that the embedded operations can raise. -/
inductive UErr where
  | fitError
  | predictError
  | shapeMismatch
  | keyError
deriving DecidableEq

/-- Outcome of a `predict` call: a returned vector, or a raised exception. -/
inductive POut where
  | ok (v : List ℕ)
  | err
deriving DecidableEq

/-- State of an `OnlineLearningBootstrap` instance (`__init__`, lines 19-41).
`config` is kept abstract: the merged configuration only flows into
`ClassifierOps.create`. -/
structure BState (F M C : Type) where
  models : Dict M
  performance_tracker : Dict PerfRecord
  feature_importance : Dict Unit
  model_history : Dict (List Unit)
  config : C

namespace OLBoot

variable {F M C : Type}

/-- `OnlineLearningBootstrap(config)`: all four dicts start empty. -/
def freshB (cfg : C) : BState F M C :=
  { models := emptyD, performance_tracker := emptyD,
    feature_importance := emptyD, model_history := emptyD, config := cfg }

/-- `initialize_models(symbols)` (lines 43-58).  The Python loop makes one
pass over `symbols` writing the four independent dicts; this is embedded as
one `dictInsertMany` per dict. -/
def initialize_models (ops : ClassifierOps F M C) (now : ℕ)
    (b : BState F M C) (symbols : List String) : BState F M C :=
  { b with
    models := dictInsertMany b.models symbols (ops.create b.config),
    performance_tracker :=
      dictInsertMany b.performance_tracker symbols (zeroRecord now),
    feature_importance := dictInsertMany b.feature_importance symbols (),
    model_history := dictInsertMany b.model_history symbols [] }

/-- `update_model(symbol, X, y)` (lines 71-95).  Returns the state as mutated
so far together with either the returned performance record or the raised
exception.  Faithful points: the lazy-create path adds only a `models` entry
(never a `performance_tracker` entry), so `performance_tracker[symbol]`
raises `KeyError` for a never-initialized symbol; metrics are recomputed over
this batch only while the two counters accumulate. -/
def update_model (ops : ClassifierOps F M C) (now : ℕ) (b : BState F M C)
    (sym : String) (X : List F) (y : List ℕ) :
    BState F M C × Except UErr PerfRecord :=
  let b1 : BState F M C :=
    match b.models sym with
    | none => { b with models := dictInsert b.models sym (ops.create b.config) }
    | some _ => b
  match b1.models sym with
  | none => (b1, Except.error UErr.keyError)
  | some m =>
    match ops.partialFit m X y (npUnique y) with
    | none => (b1, Except.error UErr.fitError)
    | some m2 =>
      let b2 : BState F M C := { b1 with models := dictInsert b1.models sym m2 }
      if 0 < y.length then
        match ops.predictM m2 X with
        | none => (b2, Except.error UErr.predictError)
        | some preds =>
          if preds.length = y.length then
            match b2.performance_tracker sym with
            | none => (b2, Except.error UErr.keyError)
            | some old =>
              let newRec : PerfRecord :=
                { accuracy := accuracy_score y preds,
                  precisionV := precision_weighted y preds,
                  recallV := recall_weighted y preds,
                  total_predictions := old.total_predictions + y.length,
                  correct_predictions :=
                    old.correct_predictions + matchCount y preds,
                  last_updated := now }
              ({ b2 with performance_tracker :=
                   dictInsert b2.performance_tracker sym newRec },
               Except.ok newRec)
          else (b2, Except.error UErr.shapeMismatch)
      else
        match b2.performance_tracker sym with
        | none => (b2, Except.error UErr.keyError)
        | some r => (b2, Except.ok r)

/-- `predict(symbol, X)` (lines 97-103): random 0/1 fallback when the symbol
has no model entry, otherwise the classifier's prediction (which raises on a
never-fitted model). -/
def predict (ops : ClassifierOps F M C) (rng : ℕ → Bool)
    (b : BState F M C) (sym : String) (X : List F) : POut :=
  match b.models sym with
  | none => POut.ok (randChoice rng X.length)
  | some m =>
    match ops.predictM m X with
    | some v => POut.ok v
    | none => POut.err

/-- `get_model_performance(symbol)` (lines 105-107): `none` models the `{}`
default of `dict.get`. -/
def get_model_performance (b : BState F M C) (sym : String) :
    Option PerfRecord :=
  b.performance_tracker sym

/-- The blob written by `save_models` / `joblib.dump` (lines 109-118). -/
structure Blob (F M C : Type) where
  models : Dict M
  performance_tracker : Dict PerfRecord
  feature_importance : Dict Unit
  config : C

/-- `save_models(filepath)`: the serialized registry. -/
def save_models (b : BState F M C) : Blob F M C :=
  { models := b.models, performance_tracker := b.performance_tracker,
    feature_importance := b.feature_importance, config := b.config }

/-- `load_models(filepath)` (lines 120-130): `none` models a missing file
(warning, state unchanged); note `model_history` is not in the blob. -/
def load_models (b : BState F M C) : Option (Blob F M C) → BState F M C
  | some blob =>
    { b with models := blob.models,
             performance_tracker := blob.performance_tracker,
             feature_importance := blob.feature_importance,
             config := blob.config }
  | none => b

/-- `reset_model(symbol)` (lines 136-148): only acts when a model entry
exists; replaces the classifier and zeroes the performance record.  It does
not touch any version counter (none exists in this class). -/
def reset_model (ops : ClassifierOps F M C) (now : ℕ)
    (b : BState F M C) (sym : String) : BState F M C :=
  match b.models sym with
  | none => b
  | some _ =>
    { b with models := dictInsert b.models sym (ops.create b.config),
             performance_tracker :=
               dictInsert b.performance_tracker sym (zeroRecord now) }

end OLBoot

/-- State of an `EnhancedOnlineLearningManager`
(`online_learning_integration.py`, `__init__`, lines 19-35).  The
`update_thread` handle is represented only by the `stop_updates` flag the
loop polls; `update_queue` is the FIFO as a list (front = next dequeued). -/
structure MState (F M C : Type) where
  bootstrap : BState F M C
  symbols : List String
  is_initialized : Bool
  update_queue : List (String × List F × List ℕ)
  performance_threshold : ℚ
  update_interval : ℕ
  last_update : Dict ℕ
  model_versions : Dict ℕ
  stop_updates : Bool

/-- One entry of the `get_performance_summary()` result (lines 142-150). -/
structure SummaryEntry where
  performance : Option PerfRecord
  last_update : Option ℕ
  model_version : ℕ
  status : String
deriving DecidableEq

namespace OLMgr

variable {F M C : Type}

/-- `EnhancedOnlineLearningManager(config)` with the given
`performance_threshold` and `update_interval` drawn from the config. -/
def freshManager (cfg : C) (threshold : ℚ) (interval : ℕ) : MState F M C :=
  { bootstrap := OLBoot.freshB cfg, symbols := [], is_initialized := false,
    update_queue := [], performance_threshold := threshold,
    update_interval := interval, last_update := emptyD,
    model_versions := emptyD, stop_updates := false }

/-- A manager built with the config defaults: `performance_threshold = 0.6`,
`update_interval = 60`. -/
def freshManagerD (cfg : C) : MState F M C := freshManager cfg (mkRat 3 5) 60

/-- `initialize(symbols)` (lines 37-50): wires the registry, stamps
`last_update`, sets every `model_versions[symbol] = 1`, marks the manager
initialized and starts the update thread (`stop_updates = False`). -/
def initializeManager (ops : ClassifierOps F M C) (now : ℕ)
    (s : MState F M C) (symbols : List String) : MState F M C :=
  { s with
    symbols := symbols,
    bootstrap := OLBoot.initialize_models ops now s.bootstrap symbols,
    last_update := dictInsertMany s.last_update symbols now,
    model_versions := dictInsertMany s.model_versions symbols 1,
    is_initialized := true,
    stop_updates := false }

/-- `_retrain_model(symbol)` (lines 95-102): reset the bootstrap model, then
bump `model_versions[symbol]`.  A `KeyError` on the bump (symbol absent from
`model_versions`) is caught by the surrounding `except`, with the reset
already applied. -/
def retrain_model (ops : ClassifierOps F M C) (now : ℕ)
    (s : MState F M C) (sym : String) : MState F M C :=
  let s1 : MState F M C :=
    { s with bootstrap := OLBoot.reset_model ops now s.bootstrap sym }
  match s1.model_versions sym with
  | none => s1
  | some v =>
    { s1 with model_versions := dictInsert s1.model_versions sym (v + 1) }

/-- `_process_update(symbol, X, y)` (lines 81-93), instrumented: returns the
resulting state, whether a retrain was triggered, and whether an exception
was raised (and caught by the method's own `except`).  Python effect order is
kept: bootstrap mutations persist even when `update_model` raises;
`last_update` is stamped before the version bump, whose `KeyError` would be
caught with the stamp already applied. -/
def process_updateT (ops : ClassifierOps F M C) (now : ℕ)
    (s : MState F M C) (sym : String) (X : List F) (y : List ℕ) :
    MState F M C × Bool × Bool :=
  match OLBoot.update_model ops now s.bootstrap sym X y with
  | (b2, Except.error _) => ({ s with bootstrap := b2 }, false, true)
  | (b2, Except.ok perf) =>
    let s2 : MState F M C :=
      { s with bootstrap := b2,
               last_update := dictInsert s.last_update sym now }
    match s2.model_versions sym with
    | none => (s2, false, true)
    | some v =>
      let s3 : MState F M C :=
        { s2 with model_versions := dictInsert s2.model_versions sym (v + 1) }
      if perf.accuracy < s3.performance_threshold then
        (retrain_model ops now s3 sym, true, false)
      else (s3, false, false)

/-- `_process_update` as the plain state transformer. -/
def process_update (ops : ClassifierOps F M C) (now : ℕ)
    (s : MState F M C) (sym : String) (X : List F) (y : List ℕ) :
    MState F M C :=
  (process_updateT ops now s sym X y).1

/-- `_evaluate_models` (lines 104-112): reads performance and logs warnings,
never mutating state. -/
def evaluate_models (s : MState F M C) : MState F M C := s

/-- `add_training_data(symbol, X, y)` (lines 114-127): silently returns when
the manager is uninitialized or the symbol unknown; otherwise enqueues.  The
`queue.Queue.put` call inside `try` cannot fail on an unbounded queue. -/
def add_training_data (s : MState F M C) (sym : String)
    (X : List F) (y : List ℕ) : MState F M C :=
  if s.is_initialized = true then
    if sym ∈ s.symbols then
      { s with update_queue := s.update_queue ++ [(sym, X, y)] }
    else s
  else s

/-- `predict(symbol, X)` (lines 129-135): random fallback when the manager is
uninitialized, otherwise delegated to the bootstrap registry. -/
def predict (ops : ClassifierOps F M C) (rng : ℕ → Bool)
    (s : MState F M C) (sym : String) (X : List F) : POut :=
  if s.is_initialized = true then OLBoot.predict ops rng s.bootstrap sym X
  else POut.ok (randChoice rng X.length)

/-- `get_performance_summary()` (lines 137-152): empty for an uninitialized
manager; otherwise one entry per initialized symbol. -/
def get_performance_summary (s : MState F M C) : String → Option SummaryEntry :=
  fun sym =>
    if s.is_initialized = true ∧ sym ∈ s.symbols then
      let performance := OLBoot.get_model_performance s.bootstrap sym
      some
        { performance := performance,
          last_update := s.last_update sym,
          model_version := (s.model_versions sym).getD 1,
          status :=
            if (match performance with
                | some r => r.accuracy
                | none => 0) ≥ s.performance_threshold
            then "active" else "needs_attention" }
    else none

/-- `save_state(filepath)` (lines 166-172): delegates to
`bootstrap.save_models`; nothing of the manager layer (in particular
`model_versions`) enters the blob. -/
def save_state (s : MState F M C) : OLBoot.Blob F M C :=
  OLBoot.save_models s.bootstrap

/-- `load_state(filepath)` (lines 174-180): delegates to
`bootstrap.load_models`; manager-layer fields are untouched. -/
def load_state (s : MState F M C) (blob : Option (OLBoot.Blob F M C)) :
    MState F M C :=
  { s with bootstrap := OLBoot.load_models s.bootstrap blob }

/-- `shutdown()` (lines 182-187): sets the stop flag observed by the worker
loop (the bounded `join` has no state effect). -/
def shutdown (s : MState F M C) : MState F M C :=
  { s with stop_updates := true }

/-- The worker's inner drain (lines 65-70) over an explicit item list,
instrumented with "some retrain fired" and "some exception was raised and
caught" flags accumulated across the processed items. -/
def drainListT (ops : ClassifierOps F M C) (now : ℕ) :
    MState F M C → List (String × List F × List ℕ) →
    MState F M C × Bool × Bool
  | s, [] => (s, false, false)
  | s, (sym, X, y) :: rest =>
    match process_updateT ops now s sym X y with
    | (s1, r, e) =>
      match drainListT ops now s1 rest with
      | (s2, r2, e2) => (s2, r || r2, e || e2)

/-- The instrumented drain of the manager's queue: items are dequeued one by
one until the queue is empty, each being passed to `_process_update`. -/
def drainQueueT (ops : ClassifierOps F M C) (now : ℕ) (s : MState F M C) :
    MState F M C × Bool × Bool :=
  drainListT ops now { s with update_queue := [] } s.update_queue

/-- The drain as the plain state transformer. -/
def drainQueue (ops : ClassifierOps F M C) (now : ℕ) (s : MState F M C) :
    MState F M C :=
  (drainQueueT ops now s).1

/-- One iteration body of `_update_worker` (lines 60-79): drain the queue,
evaluate all models (no state effect), sleep (no state effect). -/
def update_worker_body (ops : ClassifierOps F M C) (now : ℕ)
    (s : MState F M C) : MState F M C :=
  evaluate_models (drainQueue ops now s)

/-- The `_update_worker` loop, fuel-bounded.  `stopO n` is the value of the
shared `stop_updates` flag observed at the top of iteration `n` (the flag is
written only by `shutdown`); `exO n = true` injects an exception into
iteration `n`, which the loop's `except` clause catches (logged, back-off
sleep, continue).  Returns the final state and `true` when the loop exited
because the flag was observed set, `false` when fuel ran out with the loop
still running. -/
def workerRun (ops : ClassifierOps F M C) (now : ℕ)
    (stopO : ℕ → Bool) (exO : ℕ → Bool) :
    ℕ → ℕ → MState F M C → MState F M C × Bool
  | 0, _, s => (s, false)
  | Nat.succ fuel, n, s =>
    if stopO n then (s, true)
    else
      workerRun ops now stopO exO fuel (n + 1)
        (if exO n then s else update_worker_body ops now s)

end OLMgr

/-- Total-predictions counter of a symbol, read from the tracker (0 when the
symbol has no record, matching `dict.get(symbol, {})` giving no key). -/
def totalOf {F M C : Type} (s : MState F M C) (sym : String) : ℕ :=
  ((s.bootstrap.performance_tracker sym).map PerfRecord.total_predictions).getD 0

/-- Sum of the batch sizes (label-vector lengths) of the items of a drained
queue that belong to one symbol. -/
def sumBatchSizes {F : Type} (sym : String) :
    List (String × List F × List ℕ) → ℕ
  | [] => 0
  | (sy, _, y) :: rest =>
    (if sy = sym then y.length else 0) + sumBatchSizes sym rest

/-- Concrete classifier instance used for witnesses: state is a single
"has been fitted" bit; a fitted model predicts the constant label 0; fitting
an empty batch raises (sklearn rejects an empty class set); prediction on a
never-fitted model raises `NotFittedError`. -/
def cops : ClassifierOps Unit Bool Unit :=
  { create := fun _ => false,
    partialFit := fun _ _ y _ => if y.isEmpty then none else some true,
    predictM := fun m X => if m then some (X.map (fun _ => 0)) else none }

/-- Concrete random-bit oracle for witnesses. -/
def crng : ℕ → Bool := fun n => n % 2 == 0

/-- A two-row feature matrix over the trivial feature type. -/
def cX2 : List Unit := [(), ()]

/-- Concrete manager: default config, initialized at time 0 for symbol "A". -/
def cmgr0 : MState Unit Bool Unit :=
  OLMgr.initializeManager cops 0 (OLMgr.freshManagerD ()) ["A"]

/-- `cmgr0` with one enqueued batch that the constant-0 classifier predicts
perfectly (accuracy 1 ≥ threshold, so no retrain fires on drain). -/
def cmgrW : MState Unit Bool Unit :=
  { cmgr0 with update_queue := [("A", cX2, [0, 0])] }

/-- A queue holding a perfectly-predicted batch followed by a fully
mispredicted one (accuracy 0 < threshold, so the drain triggers a retrain). -/
def cqueue : List (String × List Unit × List ℕ) :=
  [("A", cX2, [0, 0]), ("A", cX2, [1, 1])]

/-- `cmgr0` with `cqueue` pending. -/
def cmgrQ : MState Unit Bool Unit := { cmgr0 with update_queue := cqueue }

/-- `cmgr0` after one successful above-threshold update: `model_versions["A"]`
is 2 and the tracker records the batch. -/
def cmgr2 : MState Unit Bool Unit :=
  OLMgr.process_update cops 1 cmgr0 "A" cX2 [0, 0]

/-- The performance record `update_model` returns for the engineered bad
batch `y = [1, 1]` against the constant-0 classifier at time 1. -/
def cperfBad : PerfRecord :=
  { accuracy := 0, precisionV := 0, recallV := 0,
    total_predictions := 2, correct_predictions := 0, last_updated := 1 }

/-- Stop-flag oracle for the worker-loop witness: the flag is observed set
from iteration 1 (as if `shutdown` ran during iteration 0). -/
def cstop : ℕ → Bool := fun k => k == 1

/-- Exception oracle for the worker-loop witness: iteration 0 raises. -/
def cex : ℕ → Bool := fun k => k == 0

/-- `cmgr0` after two consecutive bootstrap-level `reset_model` calls at
times 1 and 2 (no `_retrain_model` wrapper, hence no version bump). -/
def cmgrReset2 : MState Unit Bool Unit :=
  { cmgr0 with
    bootstrap :=
      OLBoot.reset_model cops 2
        (OLBoot.reset_model cops 1 cmgr0.bootstrap "A") "A" }


/-! ### Basic dictionary lemmas -/

theorem dictInsert_self {α : Type} (d : Dict α) (k : String) (v : α) :
    dictInsert d k v k = some v := by
  simp [dictInsert]

theorem dictInsert_other {α : Type} (d : Dict α) (k q : String) (v : α)
    (h : q ≠ k) : dictInsert d k v q = d q := by
  simp [dictInsert, h]

theorem dictInsertMany_not_mem {α : Type} (d : Dict α) (keys : List String)
    (v : α) (k : String) (h : k ∉ keys) : dictInsertMany d keys v k = d k := by
  induction keys generalizing d with
  | nil => rfl
  | cons a tl ih =>
    have h1 : k ≠ a := fun e => h (by simp [e])
    have h2 : k ∉ tl := fun m => h (List.mem_cons_of_mem a m)
    calc dictInsertMany d (a :: tl) v k
        = dictInsertMany (dictInsert d a v) tl v k := rfl
      _ = dictInsert d a v k := ih _ h2
      _ = d k := dictInsert_other _ _ _ _ h1

theorem dictInsertMany_mem {α : Type} (d : Dict α) (keys : List String)
    (v : α) (k : String) (h : k ∈ keys) : dictInsertMany d keys v k = some v := by
  induction keys generalizing d with
  | nil => cases h
  | cons a tl ih =>
    by_cases htl : k ∈ tl
    · exact ih _ htl
    · have hk : k = a := by
        rcases List.mem_cons.mp h with h1 | h2
        · exact h1
        · exact absurd h2 htl
      calc dictInsertMany d (a :: tl) v k
          = dictInsertMany (dictInsert d a v) tl v k := rfl
        _ = dictInsert d a v k := dictInsertMany_not_mem _ _ _ _ htl
        _ = some v := by simp [dictInsert, hk]

/-! ### Characterization of a successful `update_model` -/

/-- When `update_model` returns normally, the resulting registry has a model
entry for the symbol and the `total_predictions` counter of exactly that
symbol grew by the batch size (by 0 for an empty label vector, whose metric
block is skipped). -/
theorem update_model_ok_spec {F M C : Type} (ops : ClassifierOps F M C)
    (now : ℕ) (b : BState F M C) (sym : String) (X : List F) (y : List ℕ)
    (b2 : BState F M C) (perf : PerfRecord)
    (h : OLBoot.update_model ops now b sym X y = (b2, Except.ok perf)) :
    (∃ m, b2.models sym = some m) ∧
    (∀ q, ((b2.performance_tracker q).map PerfRecord.total_predictions).getD 0
        = ((b.performance_tracker q).map PerfRecord.total_predictions).getD 0
          + (if q = sym then y.length else 0)) := by
  unfold OLBoot.update_model at h
  simp only [] at h
  rcases hmod : b.models sym with _ | m0 <;> simp only [hmod] at h <;>
    repeat' split at h
  all_goals rw [Prod.mk.injEq] at h
  all_goals
    first
      | exact Except.noConfusion h.2
      | (obtain ⟨hb, hp⟩ := h
         subst hb
         injection hp with hp
         subst hp
         refine ⟨⟨_, dictInsert_self _ _ _⟩, fun q => ?_⟩
         by_cases hq : q = sym
         · subst hq
           simp_all [dictInsert]
           try omega
         · simp_all [dictInsert]
           try omega)

/-! ### Claims -/

/-- C1 (counterexample): `save_state` followed by a fresh manager's
`load_state` does not reproduce model versions.  Concretely, `cmgr2` has
`model_versions["A"] = 2`, but after the round trip the fresh manager has no
version entry for "A" at all (`save_models` never serializes the
manager-level `model_versions` dict). -/
theorem claim_C1_counterexample :
    cmgr2.model_versions "A" = some 2
    ∧ (OLMgr.load_state (OLMgr.freshManagerD ())
        (some (OLMgr.save_state cmgr2))).model_versions "A" = none :=
  ⟨by decide, rfl⟩

/-- C1 (amended): the round trip reproduces the performance records (and the
models and the config blob-wise) exactly, but the fresh manager's
`model_versions` stays empty — versions are not persisted. -/
theorem claim_C1_amended {F M C : Type} (cfg : C) (th : ℚ) (iv : ℕ)
    (s : MState F M C) :
    (OLMgr.load_state (OLMgr.freshManager cfg th iv)
        (some (OLMgr.save_state s))).bootstrap.performance_tracker
      = s.bootstrap.performance_tracker
    ∧ (OLMgr.load_state (OLMgr.freshManager cfg th iv)
        (some (OLMgr.save_state s))).bootstrap.models = s.bootstrap.models
    ∧ ∀ sym, (OLMgr.load_state (OLMgr.freshManager cfg th iv)
        (some (OLMgr.save_state s))).model_versions sym = none :=
  ⟨rfl, rfl, fun _ => rfl⟩

/-- C2: `update_model` on a symbol with no existing entry raises `KeyError`
instead of returning the updated record: the lazy-create path populates
`self.models[symbol]` but not `self.performance_tracker[symbol]`, so the
metric block's `performance_tracker[symbol]` lookup fails even though the
incremental fit succeeded. -/
theorem claim_C2_keyerror :
    (OLBoot.update_model cops 0 (OLBoot.freshB ()) "NEW" cX2 [0, 1]).2
      = Except.error UErr.keyError := by
  rfl

/-- C5: immediately after `initialize(symbols)`, every initialized symbol's
summary entry reports the zeroed performance record (accuracy 0.0) and
`model_version = 1`. -/
theorem claim_C5_init_summary {F M C : Type} (ops : ClassifierOps F M C)
    (now : ℕ) (s : MState F M C) (symbols : List String) (sym : String)
    (h : sym ∈ symbols) :
    ∃ e : SummaryEntry,
      OLMgr.get_performance_summary
        (OLMgr.initializeManager ops now s symbols) sym = some e
      ∧ e.performance = some (zeroRecord now)
      ∧ e.performance.map PerfRecord.accuracy = some 0
      ∧ e.model_version = 1 := by
  have htr : (OLMgr.initializeManager ops now s symbols).bootstrap.performance_tracker sym
      = some (zeroRecord now) := by
    simp only [OLMgr.initializeManager, OLBoot.initialize_models]
    exact dictInsertMany_mem _ _ _ _ h
  have hv : (OLMgr.initializeManager ops now s symbols).model_versions sym
      = some 1 := by
    simp only [OLMgr.initializeManager]
    exact dictInsertMany_mem _ _ _ _ h
  simp only [OLMgr.get_performance_summary]
  rw [if_pos ⟨rfl, h⟩]
  refine ⟨_, rfl, ?_, ?_, ?_⟩
  · simpa [OLBoot.get_model_performance] using htr
  · simp [OLBoot.get_model_performance, htr, zeroRecord]
  · simp [hv]

/-- C5 witness at a concrete input. -/
theorem claim_C5_witness :
    "B" ∈ ["A", "B"]
    ∧ ∃ e : SummaryEntry,
        OLMgr.get_performance_summary
          (OLMgr.initializeManager cops 5 (OLMgr.freshManagerD ()) ["A", "B"]) "B"
          = some e
        ∧ e.performance = some (zeroRecord 5)
        ∧ e.performance.map PerfRecord.accuracy = some 0
        ∧ e.model_version = 1 :=
  ⟨by decide, claim_C5_init_summary cops 5 (OLMgr.freshManagerD ()) ["A", "B"] "B" (by decide)⟩

/-- C6: for a symbol with no model entry, `predict` never raises: it returns
the random-fallback vector, which has length `len(X)` and values in {0, 1}
(both when the manager is initialized, via the bootstrap fallback, and when
it is not). -/
theorem claim_C6_unknown_fallback {F M C : Type} (ops : ClassifierOps F M C)
    (rng : ℕ → Bool) (s : MState F M C) (sym : String) (X : List F)
    (h : s.bootstrap.models sym = none) :
    OLMgr.predict ops rng s sym X = POut.ok (randChoice rng X.length)
    ∧ (randChoice rng X.length).length = X.length
    ∧ ∀ x ∈ randChoice rng X.length, x = 0 ∨ x = 1 := by
  refine ⟨?_, by simp [randChoice], ?_⟩
  · cases hI : s.is_initialized <;>
      simp [OLMgr.predict, OLBoot.predict, h, hI]
  · intro x hx
    simp only [randChoice, List.mem_map] at hx
    obtain ⟨i, -, rfl⟩ := hx
    cases rng i <;> simp

/-- C6 witness at a concrete input ("UNKNOWN" on an initialized manager). -/
theorem claim_C6_witness :
    cmgr0.bootstrap.models "UNKNOWN" = none
    ∧ (OLMgr.predict cops crng cmgr0 "UNKNOWN" cX2
        = POut.ok (randChoice crng cX2.length)
       ∧ (randChoice crng cX2.length).length = cX2.length
       ∧ ∀ x ∈ randChoice crng cX2.length, x = 0 ∨ x = 1) :=
  ⟨by decide, claim_C6_unknown_fallback cops crng cmgr0 "UNKNOWN" cX2 (by decide)⟩

/-- C8: `add_training_data` is a silent no-op (whole state unchanged) when
the manager is uninitialized or the symbol is unknown, and otherwise appends
exactly the item `(symbol, X, y)` to the update queue, leaving every other
field unchanged. -/
theorem claim_C8_add_training_data {F M C : Type} (s : MState F M C)
    (sym : String) (X : List F) (y : List ℕ) :
    (s.is_initialized = false → OLMgr.add_training_data s sym X y = s)
    ∧ (sym ∉ s.symbols → OLMgr.add_training_data s sym X y = s)
    ∧ (s.is_initialized = true → sym ∈ s.symbols →
        OLMgr.add_training_data s sym X y
          = { s with update_queue := s.update_queue ++ [(sym, X, y)] }) := by
  refine ⟨?_, ?_, ?_⟩
  · intro h1
    simp [OLMgr.add_training_data, h1]
  · intro h1
    by_cases hi : s.is_initialized = true
    · simp [OLMgr.add_training_data, hi, h1]
    · simp [OLMgr.add_training_data, hi]
  · intro h1 h2
    simp [OLMgr.add_training_data, h1, h2]

/-- C8 witness at concrete inputs: uninitialized manager, unknown symbol,
and the successful enqueue. -/
theorem claim_C8_witness :
    OLMgr.add_training_data (OLMgr.freshManagerD () : MState Unit Bool Unit) "A" cX2 [0]
      = OLMgr.freshManagerD ()
    ∧ OLMgr.add_training_data cmgr0 "B" cX2 [0] = cmgr0
    ∧ OLMgr.add_training_data cmgr0 "A" cX2 [0]
      = { cmgr0 with update_queue := cmgr0.update_queue ++ [("A", cX2, [0])] } :=
  ⟨(claim_C8_add_training_data
      (OLMgr.freshManagerD () : MState Unit Bool Unit) "A" cX2 [0]).1 rfl,
   (claim_C8_add_training_data cmgr0 "B" cX2 [0]).2.1 (by decide),
   (claim_C8_add_training_data cmgr0 "A" cX2 [0]).2.2 rfl (by decide)⟩

/-- C10: a symbol that was initialized but never updated has a model entry
holding the freshly-created classifier; since a never-fitted classifier's
`predict` raises (`NotFittedError`), `predict` on such a symbol raises
rather than falling back to random labels — the fallback applies only to
symbols with no entry at all. -/
theorem claim_C10_unfitted_raises {F M C : Type} (ops : ClassifierOps F M C)
    (rng : ℕ → Bool) (now : ℕ) (s : MState F M C) (symbols : List String)
    (sym : String) (X : List F) (h : sym ∈ symbols)
    (hunfit : ops.predictM (ops.create s.bootstrap.config) X = none) :
    OLMgr.predict ops rng (OLMgr.initializeManager ops now s symbols) sym X
      = POut.err := by
  have hm : (OLMgr.initializeManager ops now s symbols).bootstrap.models sym
      = some (ops.create s.bootstrap.config) := by
    simp only [OLMgr.initializeManager, OLBoot.initialize_models]
    exact dictInsertMany_mem _ _ _ _ h
  have hinit : (OLMgr.initializeManager ops now s symbols).is_initialized = true := rfl
  simp [OLMgr.predict, OLBoot.predict, hm, hunfit, hinit]

/-- C10 witness at a concrete input: the freshly initialized "A" raises. -/
theorem claim_C10_witness :
    "A" ∈ ["A"]
    ∧ cops.predictM (cops.create ()) cX2 = none
    ∧ OLMgr.predict cops crng
        (OLMgr.initializeManager cops 0 (OLMgr.freshManagerD ()) ["A"]) "A" cX2
      = POut.err :=
  ⟨by decide, by decide,
   claim_C10_unfitted_raises cops crng 0 (OLMgr.freshManagerD ()) ["A"] "A" cX2
     (by decide) (by decide)⟩

/-- C4: processing a queued batch whose post-update accuracy is strictly
below `performance_threshold` bumps the symbol's `model_version` by exactly
2 (one for the update, one for the triggered retrain) and resets its
performance record to the zeroed record. -/
theorem claim_C4_retrain {F M C : Type} (ops : ClassifierOps F M C)
    (now : ℕ) (s : MState F M C) (sym : String) (X : List F) (y : List ℕ)
    (b2 : BState F M C) (perf : PerfRecord) (v : ℕ)
    (h1 : OLBoot.update_model ops now s.bootstrap sym X y = (b2, Except.ok perf))
    (h2 : perf.accuracy < s.performance_threshold)
    (h3 : s.model_versions sym = some v) :
    (OLMgr.process_update ops now s sym X y).model_versions sym = some (v + 2)
    ∧ (OLMgr.process_update ops now s sym X y).bootstrap.performance_tracker sym
      = some (zeroRecord now) := by
  obtain ⟨⟨m, hm⟩, -⟩ := update_model_ok_spec ops now s.bootstrap sym X y b2 perf h1
  unfold OLMgr.process_update OLMgr.process_updateT
  rw [h1]
  simp only [h3, OLMgr.retrain_model, OLBoot.reset_model, hm]
  rw [if_pos h2]
  simp [OLMgr.retrain_model, OLBoot.reset_model, hm, dictInsert]

/-- C4 witness: the engineered bad batch `y = [1, 1]` on `cmgr0` (version 1)
yields version 3 and a zeroed record. -/
theorem claim_C4_witness :
    OLBoot.update_model cops 1 cmgr0.bootstrap "A" cX2 [1, 1]
      = ((OLBoot.update_model cops 1 cmgr0.bootstrap "A" cX2 [1, 1]).1,
         Except.ok cperfBad)
    ∧ cperfBad.accuracy < cmgr0.performance_threshold
    ∧ cmgr0.model_versions "A" = some 1
    ∧ (OLMgr.process_update cops 1 cmgr0 "A" cX2 [1, 1]).model_versions "A"
      = some 3
    ∧ (OLMgr.process_update cops 1 cmgr0 "A" cX2 [1, 1]).bootstrap.performance_tracker "A"
      = some (zeroRecord 1) :=
  ⟨rfl, by decide, by decide,
   (claim_C4_retrain cops 1 cmgr0 "A" cX2 [1, 1] _ cperfBad 1 rfl (by decide)
      (by decide)).1,
   (claim_C4_retrain cops 1 cmgr0 "A" cX2 [1, 1] _ cperfBad 1 rfl (by decide)
      (by decide)).2⟩

/-- C7 (counterexample): two consecutive `reset_model` calls at times 1 and 2
produce performance records differing in `last_updated` (so not "the same"
record), and leave the manager-level `model_version` unchanged (so it is not
strictly increasing): `reset_model` lives in the bootstrap class, which has
no version counter — only `_retrain_model` bumps versions. -/
theorem claim_C7_counterexample :
    (OLBoot.reset_model cops 1 cmgr0.bootstrap "A").performance_tracker "A"
      ≠ (OLBoot.reset_model cops 2
          (OLBoot.reset_model cops 1 cmgr0.bootstrap "A") "A").performance_tracker "A"
    ∧ cmgrReset2.model_versions "A" = cmgr0.model_versions "A" :=
  ⟨by decide, rfl⟩

/-- C7 (amended): calling `_retrain_model` twice in a row zeroes the
performance record both times — the two records agree except that
`last_updated` carries each call's own timestamp — while `model_version`
strictly increases (`v`, then `v+1`, then `v+2`). -/
theorem claim_C7_amended {F M C : Type} (ops : ClassifierOps F M C)
    (now1 now2 : ℕ) (s : MState F M C) (sym : String) (m : M) (v : ℕ)
    (hm : s.bootstrap.models sym = some m)
    (hv : s.model_versions sym = some v) :
    (OLMgr.retrain_model ops now1 s sym).bootstrap.performance_tracker sym
      = some (zeroRecord now1)
    ∧ (OLMgr.retrain_model ops now2 (OLMgr.retrain_model ops now1 s sym) sym).bootstrap.performance_tracker sym
      = some (zeroRecord now2)
    ∧ (OLMgr.retrain_model ops now1 s sym).model_versions sym = some (v + 1)
    ∧ (OLMgr.retrain_model ops now2 (OLMgr.retrain_model ops now1 s sym) sym).model_versions sym
      = some (v + 2) := by
  simp only [OLMgr.retrain_model, OLBoot.reset_model, hm, hv, dictInsert_self]
  simp [dictInsert]

/-- C7 witness at a concrete input: retraining "A" twice on `cmgr0`. -/
theorem claim_C7_witness :
    cmgr0.bootstrap.models "A" = some false
    ∧ cmgr0.model_versions "A" = some 1
    ∧ ((OLMgr.retrain_model cops 1 cmgr0 "A").bootstrap.performance_tracker "A"
        = some (zeroRecord 1)
       ∧ (OLMgr.retrain_model cops 2 (OLMgr.retrain_model cops 1 cmgr0 "A") "A").bootstrap.performance_tracker "A"
        = some (zeroRecord 2)
       ∧ (OLMgr.retrain_model cops 1 cmgr0 "A").model_versions "A" = some 2
       ∧ (OLMgr.retrain_model cops 2 (OLMgr.retrain_model cops 1 cmgr0 "A") "A").model_versions "A"
        = some 3) :=
  ⟨by decide, by decide,
   claim_C7_amended cops 1 2 cmgr0 "A" false 1 (by decide) (by decide)⟩

/-- C9: exceptions never end the worker loop, only the stop flag does.  An
exception injected into iteration `n` is caught at the iteration boundary
and the loop goes on to iteration `n+1` with the state unchanged; and
whenever the loop reports a normal exit, some iteration observed the stop
flag set — with unbounded fuel the loop can only terminate that way. -/
theorem claim_C9_worker_loop {F M C : Type} (ops : ClassifierOps F M C)
    (now : ℕ) (stopO exO : ℕ → Bool) (fuel n : ℕ) (s : MState F M C)
    (hstop : stopO n = false) (hex : exO n = true) :
    OLMgr.workerRun ops now stopO exO (fuel + 1) n s
      = OLMgr.workerRun ops now stopO exO fuel (n + 1) s
    ∧ ∀ (fuel2 n2 : ℕ) (s2 : MState F M C),
        (OLMgr.workerRun ops now stopO exO fuel2 n2 s2).2 = true →
        ∃ k, stopO (n2 + k) = true := by
  constructor
  · simp [OLMgr.workerRun, hstop, hex]
  · intro fuel2
    induction fuel2 with
    | zero =>
      intro n2 s2 h
      simp [OLMgr.workerRun] at h
    | succ f ih =>
      intro n2 s2 h
      rw [OLMgr.workerRun] at h
      by_cases hs : stopO n2 = true
      · exact ⟨0, by simpa using hs⟩
      · rw [if_neg hs] at h
        obtain ⟨k, hk⟩ := ih _ _ h
        refine ⟨k + 1, ?_⟩
        have harith : n2 + (k + 1) = n2 + 1 + k := by omega
        rw [harith]
        exact hk

/-- C9 witness: iteration 0 raises and is survived; the loop then exits at
iteration 1 where the stop flag is observed. -/
theorem claim_C9_witness :
    cstop 0 = false ∧ cex 0 = true
    ∧ (OLMgr.workerRun cops 0 cstop cex 3 0 cmgr0
        = OLMgr.workerRun cops 0 cstop cex 2 1 cmgr0
       ∧ ∀ (fuel2 n2 : ℕ) (s2 : MState Unit Bool Unit),
           (OLMgr.workerRun cops 0 cstop cex fuel2 n2 s2).2 = true →
           ∃ k, cstop (n2 + k) = true) :=
  ⟨rfl, rfl, claim_C9_worker_loop cops 0 cstop cex 2 0 cmgr0 rfl rfl⟩

/-- A `_process_update` that triggered no retrain and raised nothing grows
the processed symbol's `total_predictions` by the batch size and leaves every
other symbol's counter unchanged. -/
theorem process_updateT_total {F M C : Type} (ops : ClassifierOps F M C)
    (now : ℕ) (s : MState F M C) (sym : String) (X : List F) (y : List ℕ)
    (s1 : MState F M C)
    (h : OLMgr.process_updateT ops now s sym X y = (s1, false, false)) :
    ∀ q, totalOf s1 q = totalOf s q + (if sym = q then y.length else 0) := by
  intro q
  unfold OLMgr.process_updateT at h
  rcases hu : OLBoot.update_model ops now s.bootstrap sym X y with ⟨b2, res⟩
  rw [hu] at h
  cases res with
  | error e => simp at h
  | ok perf =>
    obtain ⟨-, hspec⟩ := update_model_ok_spec ops now s.bootstrap sym X y b2 perf hu
    simp only [] at h
    rcases hv : s.model_versions sym with _ | v
    · simp only [hv] at h
      simp at h
    · simp only [hv] at h
      split at h
      · simp at h
      · rw [Prod.mk.injEq] at h
        obtain ⟨hs, -⟩ := h
        subst hs
        have hq := hspec q
        simp only [totalOf]
        rcases eq_or_ne q sym with rfl | hne
        · simpa using hq
        · simp only [hne, if_false] at hq
          simp only [Ne.symm hne, if_false]
          simpa using hq

/-- Draining a list of update items with no retrain and no exception adds
exactly the per-symbol sum of batch sizes to each `total_predictions`. -/
theorem drainListT_total {F M C : Type} (ops : ClassifierOps F M C)
    (now : ℕ) (items : List (String × List F × List ℕ)) :
    ∀ (s s2 : MState F M C),
      OLMgr.drainListT ops now s items = (s2, false, false) →
      ∀ q, totalOf s2 q = totalOf s q + sumBatchSizes q items := by
  induction items with
  | nil =>
    intro s s2 h q
    rw [OLMgr.drainListT, Prod.mk.injEq] at h
    obtain ⟨hs, -⟩ := h
    subst hs
    simp [sumBatchSizes]
  | cons it rest ih =>
    intro s s2 h q
    obtain ⟨sy, X, y⟩ := it
    rw [OLMgr.drainListT] at h
    rcases hp : OLMgr.process_updateT ops now s sy X y with ⟨s1, r, e⟩
    rcases hd : OLMgr.drainListT ops now s1 rest with ⟨s3, r2, e2⟩
    simp only [hp, hd, Prod.mk.injEq, Bool.or_eq_false_iff] at h
    obtain ⟨hs, ⟨hr, hr2⟩, he, he2⟩ := h
    subst hs hr hr2 he he2
    have step := process_updateT_total ops now s sy X y s1 hp q
    have tail := ih s1 s3 hd q
    rw [sumBatchSizes]
    omega

/-- C3 (counterexample): with the queue holding a perfect batch then a fully
mispredicted one, the drain ends with `total_predictions = 0` although the
summed batch sizes are 4, because the second update's accuracy fell below
the threshold and the triggered retrain zeroed the counters; the counter was
2 after the first update and 0 after the second, so it is not monotone. -/
theorem claim_C3_counterexample :
    totalOf (OLMgr.drainQueue cops 1 cmgrQ) "A"
      ≠ totalOf cmgrQ "A" + sumBatchSizes "A" cmgrQ.update_queue
    ∧ totalOf (OLMgr.drainQueue cops 1 cmgrW) "A" = 2
    ∧ totalOf (OLMgr.drainQueue cops 1 cmgrQ) "A" = 0 :=
  ⟨by decide, by decide, by decide⟩

/-- C3 (amended): over any drain in which no processed batch triggered a
retrain and none raised, each symbol's `total_predictions` ends at its
starting value plus the sum of the drained batch sizes for that symbol, and
in particular never decreases.  (A threshold-triggered retrain resets the
counter to zero, breaking both clauses of the original claim.) -/
theorem claim_C3_amended {F M C : Type} (ops : ClassifierOps F M C)
    (now : ℕ) (s s2 : MState F M C) (q : String)
    (h : OLMgr.drainQueueT ops now s = (s2, false, false)) :
    totalOf s2 q = totalOf s q + sumBatchSizes q s.update_queue
    ∧ totalOf s q ≤ totalOf s2 q := by
  unfold OLMgr.drainQueueT at h
  have hmain := drainListT_total ops now s.update_queue _ s2 h q
  have h0 : totalOf { s with update_queue := ([] : List (String × List F × List ℕ)) } q
      = totalOf s q := rfl
  rw [h0] at hmain
  exact ⟨hmain, by omega⟩

/-- C3 witness: draining the single perfect batch adds its size 2. -/
theorem claim_C3_witness :
    OLMgr.drainQueueT cops 1 cmgrW
      = ((OLMgr.drainQueueT cops 1 cmgrW).1, false, false)
    ∧ (totalOf (OLMgr.drainQueueT cops 1 cmgrW).1 "A"
        = totalOf cmgrW "A" + sumBatchSizes "A" cmgrW.update_queue
       ∧ totalOf cmgrW "A" ≤ totalOf (OLMgr.drainQueueT cops 1 cmgrW).1 "A") :=
  ⟨rfl, claim_C3_amended cops 1 cmgrW _ "A" rfl⟩
